import Mathlib

/-!
Shallow embedding of the Action Execution & Orchestration Engine of
`src/app.py` (Flask automated HTML testing application).

Modelling conventions:
* Python dicts holding a test action are embedded as the `Action` structure;
  a key that may be absent is an `Option` field, and a `dict[key]` access on a
  missing key is a `KeyError` — embedded as `Except.error "'key'"`
  (the text of `str(KeyError(key))`).
* The Selenium driver is opaque I/O.  An `Env` records, for one run, what the
  driver answers: which selector resolves (within the fixed timeout) under
  each wait condition, the open window handles, the current URL, script
  results, screenshot-capture outcomes, and the measured per-action elapsed
  durations.  A `WebDriverWait ... until` that times out raises an exception
  whose text is the opaque `Env.timeoutMsg`.
* Wall-clock timestamps (`result['timestamp']`, the report timestamp) and the
  global `active_tests` progress map are pure I/O with no influence on any
  report content, and are omitted.
* Python floats are idealised as exact rationals; `round(x, 2)` is embedded
  as round-half-to-even on the exact rational (`roundHalfEvenDiv`).
* Python `str.replace` (replace all non-overlapping occurrences, scanning
  left to right, never rescanning replaced text) is embedded as `strReplace`;
  the substitution patterns `"${name}"` are never empty, so the empty-pattern
  branch is irrelevant and embedded as the identity.
-/

namespace ATF

/-- Outcome status of one executed action: `result['status']` ∈
\x7b'passed', 'failed'\x7d in `ActionExecutor.execute`. -/
inductive Status where
  | passed
  | failed
deriving DecidableEq

/-- What the driver reports about a located element: its visible text
(`element.text`), its `value` attribute (`element.get_attribute("value")`,
`none` embedding Python `None`), and its displayed flag
(`element.is_displayed()`). -/
structure Element where
  text : String
  valueAttr : Option String
  displayed : Bool
deriving DecidableEq

/-- One test action as loaded from `actions.json`: a dict whose recognised
keys are `type`, `selector`, `value`, `expected`, `duration`, `script`,
`variable` (embedded as the field `var?`, since `variable` is a Lean
keyword) and `index`.  Every field is optional because any key may be
missing from the JSON object. -/
structure Action where
  type? : Option String := none
  selector? : Option String := none
  value? : Option String := none
  expected? : Option String := none
  duration? : Option ℚ := none
  script? : Option String := none
  var? : Option String := none
  index? : Option Int := none
deriving DecidableEq

/-- The result dict built by `ActionExecutor.execute` and stamped with
`duration` by `TestRunner.run` (the ISO `timestamp` field is wall-clock I/O
and omitted).  `execute` itself leaves `duration` at `0`; the run loop
overwrites it with the measured elapsed time. -/
structure ActionResult where
  action : String
  selector : String
  status : Status
  message : String
  screenshot : Option String
  duration : ℚ := 0
deriving DecidableEq

/-- Mutable state owned by one `ActionExecutor` (one run): the variable
store `self.variables` (embedded as the field `vars`, since `variables` is
a Lean keyword; insertion-ordered, as a Python dict), and the browser focus
moved by `switch_to_window` / `switch_to_frame`. -/
structure ExecState where
  vars : List (String × String) := []
  currentWindow : Option String := none
  frameContext : Option String := none
deriving DecidableEq

/-- Opaque driver/environment behaviour for one run: what each
`WebDriverWait` condition resolves to within the timeout (`none` = the wait
times out), the window handles, the current URL, `execute_script` results,
screenshot capture outcomes (`prefix ↦ action type ↦ saved path`, `none` =
capture failed), the per-action measured durations, and the text of a
Selenium timeout exception. -/
structure Env where
  findPresent : String → Option Element
  findClickable : String → Option Element
  findVisible : String → Option Element
  windowHandles : List String
  currentUrl : String
  execScript : String → String
  screenshot : String → String → Option String
  elapsed : Nat → ℚ
  timeoutMsg : String

/-- Text of `str(KeyError(key))`: the repr of the missing key. -/
def keyError (key : String) : String := "\x27" ++ key ++ "\x27"

/-- Python `element.text or element.get_attribute("value") or ""`:
first truthy (non-empty, non-None) string in the chain. -/
def textOrValue (el : Element) : String :=
  if el.text ≠ "" then el.text
  else match el.valueAttr with
       | some v => v
       | none => ""

/-- Python `str(None)` vs `str(s)` when a value that may be `None` is
interpolated into an f-string. -/
def pyOptStr : Option String → String
  | some s => s
  | none => "None"

/-- Assignment `d[k] = v` on an insertion-ordered dict: overwrite in place
if the key exists, else append. -/
def setVar (vars : List (String × String)) (k v : String) : List (String × String) :=
  if vars.any (fun p => p.1 = k)
  then vars.map (fun p => if p.1 = k then (k, v) else p)
  else vars ++ [(k, v)]

/-- Core loop of Python `str.replace` over the character list: at each
position, if the (non-empty) pattern matches, emit the replacement and skip
the matched characters (the skip counter suppresses matching inside the
consumed region, giving left-to-right non-overlapping replacement); else
keep the character and move on. -/
def replaceAux (pat rep : List Char) : List Char → Nat → List Char
  | [], _ => []
  | _ :: rest, skip + 1 => replaceAux pat rep rest skip
  | c :: rest, 0 =>
    if pat.isPrefixOf (c :: rest)
    then rep ++ replaceAux pat rep rest (pat.length - 1)
    else c :: replaceAux pat rep rest 0

/-- Python `s.replace(pat, rep)`.  The embedding is only ever applied with
the non-empty patterns `"${name}"`, so the empty-pattern case (where Python
would insert `rep` at every boundary) is embedded as the identity. -/
def strReplace (s pat rep : String) : String :=
  if pat = "" then s
  else String.mk (replaceAux pat.data rep.data s.data 0)

/-- `ActionExecutor._substitute_variables` (app.py lines 339-344): for each
stored variable, in dict insertion order, textually replace every
occurrence of the token `"${name}"` by the stored value. -/
def substituteVariables (vars : List (String × String)) (value : String) : String :=
  vars.foldl (fun acc p => strReplace acc ("$\x7b" ++ p.1 ++ "\x7d") p.2) value

/-- Python `needle in hay` on strings: substring containment. -/
def strContains (hay needle : String) : Bool := decide (needle.data <:+: hay.data)

/-- The per-type handlers `ActionExecutor._handle_<type>` (app.py lines
171-344), dispatched by `getattr(self, f"_handle_\x7baction_type\x7d")`:
`none` means no handler exists (unknown action type); `some (Except.error
e)` means the handler raised an exception with text `e` (selector wait
timeout, or a `KeyError` for a required key accessed with `action[...]`);
`some (Except.ok (status, message, screenshot, newState))` is a normal
return after mutating `result` and possibly the executor state.  Calls into
the driver that the claims never depend on (click, clear/send_keys,
select-by-value, hover and pointer gestures, scroll, frame/window focus)
are opaque driver I/O and succeed once the guarding wait has resolved. -/
def handleAction (env : Env) (s : ExecState) (t : String) (a : Action) :
    Option (Except String (Status × String × Option String × ExecState)) :=
  match t with
  | "click" =>
    some (match a.selector? with
      | none => Except.error (keyError "selector")
      | some sel =>
        match env.findClickable sel with
        | none => Except.error env.timeoutMsg
        | some _ => Except.ok (Status.passed, "Element clicked successfully", none, s))
  | "input" =>
    some (match a.selector? with
      | none => Except.error (keyError "selector")
      | some sel =>
        match env.findPresent sel with
        | none => Except.error env.timeoutMsg
        | some _ =>
          match a.value? with
          | none => Except.error (keyError "value")
          | some v0 =>
            let v := substituteVariables s.vars v0
            Except.ok (Status.passed, "Input value: \x27" ++ v ++ "\x27", none, s))
  | "select" =>
    some (match a.selector? with
      | none => Except.error (keyError "selector")
      | some sel =>
        match env.findPresent sel with
        | none => Except.error env.timeoutMsg
        | some _ =>
          match a.value? with
          | none => Except.error (keyError "value")
          | some v =>
            Except.ok (Status.passed, "Selected value: \x27" ++ v ++ "\x27", none, s))
  | "verify_text" =>
    some (match a.selector? with
      | none => Except.error (keyError "selector")
      | some sel =>
        match env.findPresent sel with
        | none => Except.error env.timeoutMsg
        | some el =>
          let text := textOrValue el
          let expected := (a.expected?).getD ""
          if strContains text expected
          then Except.ok (Status.passed,
            "Text verification passed: \x27" ++ expected ++ "\x27 found", none, s)
          else Except.ok (Status.failed,
            "Expected \x27" ++ expected ++ "\x27, found \x27" ++ text ++ "\x27", none, s))
  | "verify_exists" =>
    some (match a.selector? with
      | none => Except.error (keyError "selector")
      | some sel =>
        match env.findPresent sel with
        | none => Except.error env.timeoutMsg
        | some _ => Except.ok (Status.passed, "Element exists", none, s))
  | "verify_visible" =>
    some (match a.selector? with
      | none => Except.error (keyError "selector")
      | some sel =>
        match env.findVisible sel with
        | none => Except.error env.timeoutMsg
        | some el =>
          if el.displayed
          then Except.ok (Status.passed, "Element is visible", none, s)
          else Except.ok (Status.failed, "Element exists but is not visible", none, s))
  | "wait" =>
    some (let secs : ℚ := ((a.duration?).getD 1000) / 1000
      Except.ok (Status.passed, "Waited " ++ toString secs ++ "s", none, s))
  | "hover" =>
    some (match a.selector? with
      | none => Except.error (keyError "selector")
      | some sel =>
        match env.findPresent sel with
        | none => Except.error env.timeoutMsg
        | some _ => Except.ok (Status.passed, "Hovered over element", none, s))
  | "scroll_to" =>
    some (match a.selector? with
      | none => Except.error (keyError "selector")
      | some sel =>
        match env.findPresent sel with
        | none => Except.error env.timeoutMsg
        | some _ => Except.ok (Status.passed, "Scrolled to element", none, s))
  | "execute_script" =>
    some (let script := (a.script?).getD ""
      let r := env.execScript script
      Except.ok (Status.passed, "Script executed. Result: " ++ r, none, s))
  | "screenshot" =>
    some (let path := env.screenshot "manual" t
      Except.ok (Status.passed, "Screenshot captured: " ++ pyOptStr path, path, s))
  | "store_text" =>
    some (match a.selector? with
      | none => Except.error (keyError "selector")
      | some sel =>
        match env.findPresent sel with
        | none => Except.error env.timeoutMsg
        | some el =>
          let text := textOrValue el
          let varName := (a.var?).getD "stored_text"
          Except.ok (Status.passed,
            "Stored text \x27" ++ text ++ "\x27 in variable \x27" ++ varName ++ "\x27",
            none, { s with vars := setVar s.vars varName text }))
  | "verify_url" =>
    some (let url := env.currentUrl
      let expected := (a.expected?).getD ""
      if strContains url expected
      then Except.ok (Status.passed,
        "URL verification passed: \x27" ++ expected ++ "\x27 found in \x27" ++ url ++ "\x27",
        none, s)
      else Except.ok (Status.failed,
        "Expected URL to contain \x27" ++ expected ++ "\x27, but got \x27" ++ url ++ "\x27",
        none, s))
  | "double_click" =>
    some (match a.selector? with
      | none => Except.error (keyError "selector")
      | some sel =>
        match env.findClickable sel with
        | none => Except.error env.timeoutMsg
        | some _ => Except.ok (Status.passed, "Element double-clicked successfully", none, s))
  | "right_click" =>
    some (match a.selector? with
      | none => Except.error (keyError "selector")
      | some sel =>
        match env.findClickable sel with
        | none => Except.error env.timeoutMsg
        | some _ => Except.ok (Status.passed, "Element right-clicked successfully", none, s))
  | "switch_to_frame" =>
    some (let frameSel := (a.selector?).getD ""
      if frameSel ≠ ""
      then match env.findPresent frameSel with
        | none => Except.error env.timeoutMsg
        | some _ => Except.ok (Status.passed, "Switched to frame", none,
            { s with frameContext := some frameSel })
      else Except.ok (Status.passed, "Switched to frame", none,
            { s with frameContext := none }))
  | "switch_to_window" =>
    some (let windowIndex := (a.index?).getD (-1)
      let windows := env.windowHandles
      if 0 ≤ windowIndex ∧ windowIndex < (windows.length : Int)
      then Except.ok (Status.passed, "Switched to window " ++ toString windowIndex, none,
        { s with currentWindow := windows.get? windowIndex.toNat })
      else Except.ok (Status.failed, "Invalid window index: " ++ toString windowIndex, none, s))
  | _ => none

/-- `ActionExecutor.execute` (app.py lines 144-169).  The initial result
dict reads `action['type']` BEFORE the `try` block, so a missing `type` key
raises a `KeyError` that escapes `execute` (`Except.error`).  Otherwise the
per-type handler runs inside the `try`: an unknown type yields a failed
result with an explanatory message; a handler exception is caught and
becomes a failed result carrying the exception text and a best-effort
failure screenshot. -/
def execute (env : Env) (s : ExecState) (a : Action) :
    Except String (ActionResult × ExecState) :=
  match a.type? with
  | none => Except.error (keyError "type")
  | some t =>
    let sel := (a.selector?).getD ""
    match handleAction env s t a with
    | none =>
      Except.ok ({ action := t, selector := sel, status := Status.failed,
                   message := "Unknown action type: " ++ t, screenshot := none }, s)
    | some (Except.ok (st, msg, shot, s1)) =>
      Except.ok ({ action := t, selector := sel, status := st,
                   message := msg, screenshot := shot }, s1)
    | some (Except.error e) =>
      Except.ok ({ action := t, selector := sel, status := Status.failed,
                   message := e, screenshot := env.screenshot "failure" t }, s)

/-- Fresh `ActionExecutor` state at the start of a run
(`executor = ActionExecutor(self.driver)`): empty variable store,
default focus. -/
def initState : ExecState := {}

/-- The summary dict built by `TestRunner.run` (app.py lines 481-489); the
synthetic per-target error summaries built in `run_test` have no
`duration` key, hence `duration?`. -/
structure RunSummary where
  browser : String
  total : Nat
  passed : Nat
  failed : Nat
  success_rate : ℚ
  duration? : Option ℚ := none
deriving DecidableEq

/-- The report dict returned by `TestRunner.run` (`summary`, `details`; the
wall-clock `timestamp` is omitted) together with the `error` key attached
only to the synthetic per-target reports built in `run_test`. -/
structure RunReport where
  summary : RunSummary
  details : List ActionResult
  error : Option String := none
deriving DecidableEq

/-- Round-half-to-even of the exact fraction `a / b` (`b > 0`): the Python
`round` function, idealised over exact rationals. -/
def roundHalfEvenDiv (a : ℤ) (b : ℕ) : ℤ :=
  let fl := Int.fdiv a b
  let r := a - fl * b
  if 2 * r < (b : ℤ) then fl
  else if (b : ℤ) < 2 * r then fl + 1
  else if fl % 2 = 0 then fl else fl + 1

/-- Python `round(a / b, 2)` over exact rationals: round `(a/b)·100` half to
even, then divide by `100`. -/
def pyRound2Frac (a : ℤ) (b : ℕ) : ℚ := (roundHalfEvenDiv (a * 100) b : ℚ) / 100

/-- The action loop of `TestRunner.run` (app.py lines 460-478): execute each
action in order, stamp the measured duration on the result, append it, and
bump the passed/failed counter by the result status.  A `KeyError` escaping
`ActionExecutor.execute` (missing `type` key) propagates and aborts the
whole loop (`Except.error`). -/
def runActions (env : Env) : List Action → ExecState → Nat →
    Except String (List ActionResult × Nat × Nat × ExecState)
  | [], s, _ => Except.ok ([], 0, 0, s)
  | a :: rest, s, idx =>
    match execute env s a with
    | Except.error e => Except.error e
    | Except.ok (r0, s1) =>
      let r := { r0 with duration := env.elapsed idx }
      match runActions env rest s1 (idx + 1) with
      | Except.error e => Except.error e
      | Except.ok (rs, p, f, s2) =>
        Except.ok (r :: rs,
          (if r.status = Status.passed then p + 1 else p),
          (if r.status = Status.passed then f else f + 1), s2)

/-- `TestRunner.run` (app.py lines 434-503) restricted to its report-shaping
core: driver setup, navigation and JSON loading are orchestration I/O
(their failures surface at the orchestrator boundary, see `runTarget`);
given the loaded action list, run the loop and build the summary
(`success_rate = round((passed/total)*100, 2)` when `total` is non-zero,
else `0`; `duration` = sum of the stamped per-result durations).  An
exception escaping the loop is re-raised (`Except.error`). -/
def TestRunner.run (env : Env) (browser : String) (actions : List Action) :
    Except String RunReport :=
  match runActions env actions initState 0 with
  | Except.error e => Except.error e
  | Except.ok (results, passed, failed, _) =>
    Except.ok
      { summary :=
          { browser := browser
            total := actions.length
            passed := passed
            failed := failed
            success_rate :=
              if actions.length ≠ 0
              then pyRound2Frac ((passed : ℤ) * 100) actions.length
              else 0
            duration? := some ((results.map (fun r => r.duration)).sum) }
        details := results }

/-- The synthetic per-target report built in `run_test` (app.py lines
752-763 and 775-786) when one target raises: zero counts, empty details,
the exception text under `error`; the summary has no `duration` key. -/
def syntheticReport (b e : String) : RunReport :=
  { summary := { browser := b, total := 0, passed := 0, failed := 0,
                 success_rate := 0, duration? := none },
    details := [], error := some e }

/-- One target's execution inside `run_test`: driver/session setup for
browser `b` may raise (`setup b = some e`, e.g. `WebDriverException` or the
`ValueError` for an unsupported browser name, re-raised by
`TestRunner.run`), otherwise the run executes and may itself raise. -/
def runTarget (setup : String → Option String) (env : String → Env)
    (actions : List Action) (b : String) : Except String RunReport :=
  match setup b with
  | some e => Except.error e
  | none => TestRunner.run (env b) b actions

/-- The per-target `try/except` of `run_test`: a normal report passes
through, an exception becomes the synthetic zero-count error report. -/
def targetEntry (setup : String → Option String) (env : String → Env)
    (actions : List Action) (b : String) : RunReport :=
  match runTarget setup env actions b with
  | Except.ok r => r
  | Except.error e => syntheticReport b e

/-- `browsers = ["chrome", "firefox", "edge"]` in the `browser == "all"`
branch of `run_test`. -/
def allBrowsers : List String := ["chrome", "firefox", "edge"]

/-- Sequential multi-target execution (app.py lines 765-786): targets run
one after another in the given order, each wrapped in the per-target
`try/except`. -/
def runAllSequential (setup : String → Option String) (env : String → Env)
    (actions : List Action) : List RunReport :=
  allBrowsers.map (targetEntry setup env actions)

/-- Parallel multi-target execution (app.py lines 733-763): one future per
browser, results appended in `as_completed` order.  Each future's
computation is independent (the shared `active_tests` map never feeds back
into report contents), so the nondeterministic schedule is captured by the
arrival order `completionOrder`, a permutation of the submitted browsers. -/
def runAllParallel (setup : String → Option String) (env : String → Env)
    (actions : List Action) (completionOrder : List String) : List RunReport :=
  completionOrder.map (targetEntry setup env actions)

/-- The failed-subset extraction in `retry_failed` (app.py lines 886-889):
the detail entries of the last run whose status is `failed`, in order. -/
def planRetry (lastRun : RunReport) : List ActionResult :=
  lastRun.details.filter (fun d => decide (d.status = Status.failed))

/-- The JSON round-trip in `retry_failed`: a failed detail entry is dumped
to `retry_actions.json` and re-loaded as a test action.  Its keys are
`action`, `selector`, `status`, `message`, `timestamp`, `screenshot` and
`duration` — there is no `type` key (the action type was recorded under
`action`) and no `value`/`expected`/`script`/`variable`/`index` key; only
`selector` and `duration` coincide with recognised action keys. -/
def resultToAction (r : ActionResult) : Action :=
  { type? := none, selector? := some r.selector, value? := none,
    expected? := none, duration? := some r.duration, script? := none,
    var? := none, index? := none }

/-- `retry_failed` (app.py lines 865-916) restricted to its core: extract
the failed entries of the last persisted run, write them out as the new
action list, and execute them through `TestRunner.run` under the derived
test name (the run itself is what the claims inspect; the derived name is
`test_name + "_retry"` at line 906).  The no-failed-entries short-circuit
(`'No failed actions to retry'`) is taken before this function runs. -/
def retry_failed (env : Env) (browser : String) (lastRun : RunReport) :
    Except String RunReport :=
  TestRunner.run env browser ((planRetry lastRun).map resultToAction)

/-! Concrete environments and scenarios used to evaluate the model on
explicit inputs. -/

/-- A driver environment in which no selector ever resolves, no window is
open, and all measured durations are zero. -/
def env0 : Env :=
  { findPresent := fun _ => none, findClickable := fun _ => none,
    findVisible := fun _ => none, windowHandles := [], currentUrl := "",
    execScript := fun _ => "", screenshot := fun _ _ => none,
    elapsed := fun _ => 0, timeoutMsg := "Message: " }

/-- Three-action list: one action that passes under `env0` (`verify_url`
with the defaulted empty expectation) followed by two that fail
(`switch_to_window` with the defaulted index `-1`). -/
def acts3 : List Action :=
  [{ type? := some "verify_url" }, { type? := some "switch_to_window" },
   { type? := some "switch_to_window" }]

/-- A passed detail entry as `TestRunner.run` would record it. -/
def passDetail (sel : String) : ActionResult :=
  { action := "click", selector := sel, status := Status.passed,
    message := "Element clicked successfully", screenshot := none }

/-- A failed detail entry (selector wait timed out) as `TestRunner.run`
would record it. -/
def failDetail (sel : String) : ActionResult :=
  { action := "click", selector := sel, status := Status.failed,
    message := "Message: ", screenshot := none }

/-- A persisted five-action report in which entries 2 and 4 (1-indexed)
failed. -/
def report5 : RunReport :=
  { summary := { browser := "chrome", total := 5, passed := 3, failed := 2,
                 success_rate := 60, duration? := some 0 },
    details := [passDetail "#a1", failDetail "#a2", passDetail "#a3",
                failDetail "#a4", passDetail "#a5"] }

/-- A `store_text` action reading the element at `sel` into variable `x`. -/
def storeAbcAction (sel : String) : Action :=
  { type? := some "store_text", selector? := some sel, var? := some "x" }

/-- An `input` action whose value holds the token of the stored variable
`x` and the token of the never-stored variable `y`. -/
def inputTokensAction (sel : String) : Action :=
  { type? := some "input", selector? := some sel,
    value? := some "$\x7bx\x7d and $\x7by\x7d" }

/-- An element whose visible text is `"abc"`. -/
def el_abc : Element := { text := "abc", valueAttr := none, displayed := true }

/-- Like `env0`, but the selectors `#src` and `#dst` resolve (under the
presence wait) to the element with text `"abc"`. -/
def env4 : Env :=
  { env0 with
    findPresent := fun sel => if sel = "#src" ∨ sel = "#dst" then some el_abc else none }

/-- Like `env0`, but two windows are open. -/
def env2win : Env := { env0 with windowHandles := ["w0", "w1"] }

/-- A session-setup oracle under which the firefox target's driver setup
raises with text `"boom"` and the other targets set up fine. -/
def setupFirefoxFails : String → Option String :=
  fun b => if b = "firefox" then some "boom" else none

/-- The report `TestRunner.run` produces for an empty action list. -/
def emptyReportFor (b : String) : RunReport :=
  { summary := { browser := b, total := 0, passed := 0, failed := 0,
                 success_rate := 0, duration? := some 0 },
    details := [] }

/-! Helper lemmas. -/

/-- The empty string is `in` every Python string. -/
theorem strContains_nil (hay : String) : strContains hay "" = true :=
  decide_eq_true List.nil_infix

/-- Boolean prefix test soundness, specialised to characters. -/
theorem prefix_of_isPrefixOf {l1 l2 : List Char} (h : l1.isPrefixOf l2 = true) :
    l1 <+: l2 :=
  List.isPrefixOf_iff_prefix.mp h

/-- The boolean prefix test holds on equal lists. -/
theorem isPrefixOf_self : ∀ l : List Char, l.isPrefixOf l = true := by
  intro l
  induction l with
  | nil => rfl
  | cons c cs ih => simp [List.isPrefixOf, ih]

/-- With the skip counter set to the whole remaining length, `replaceAux`
consumes the rest of the string without emitting or matching anything: the
region matched by one replacement is never rescanned. -/
theorem replaceAux_skip_all (pat rep : List Char) :
    ∀ l : List Char, replaceAux pat rep l l.length = [] := by
  intro l
  induction l with
  | nil => rfl
  | cons c rest ih => simpa [replaceAux] using ih

/-- One replacement pass maps a string equal to the (non-empty) pattern to
the replacement text exactly — in particular the inserted replacement text
is not rescanned, even when the pattern occurs inside it. -/
theorem strReplace_self (pat rep : String) (c : Char) (cs : List Char)
    (hp : pat.data = c :: cs) : strReplace pat pat rep = rep := by
  have hne : pat ≠ "" := by
    intro h
    rw [h] at hp
    exact List.noConfusion hp
  unfold strReplace
  rw [if_neg hne, hp]
  simp [replaceAux, isPrefixOf_self, replaceAux_skip_all]

/-- A replacement pass leaves any string in which the pattern does not
occur unchanged. -/
theorem replaceAux_no_occurrence (pat rep : List Char) :
    ∀ l : List Char, ¬ (pat <:+: l) → replaceAux pat rep l 0 = l := by
  intro l
  induction l with
  | nil => intro _; rfl
  | cons c rest ih =>
    intro hni
    have hpre : pat.isPrefixOf (c :: rest) = false := by
      rw [← Bool.not_eq_true]
      intro hp
      obtain ⟨t, ht⟩ := prefix_of_isPrefixOf hp
      exact hni ⟨[], t, by simpa using ht⟩
    have hrest : ¬ (pat <:+: rest) := fun hinf => hni (List.infix_cons hinf)
    simp [replaceAux, hpre, ih hrest]

/-- Python `s.replace(pat, rep)` is the identity when `pat not in s`. -/
theorem strReplace_of_not_contains {s pat : String} (rep : String)
    (h : strContains s pat = false) : strReplace s pat rep = s := by
  by_cases hp : pat = ""
  · unfold strReplace
    rw [if_pos hp]
  · unfold strReplace
    rw [if_neg hp, replaceAux_no_occurrence pat.data rep.data s.data
      (of_decide_eq_false h)]

/-- Character data of a substitution token `"${name}"`. -/
theorem token_data (n : String) :
    ("$\x7b" ++ n ++ "\x7d").data = '$' :: '{' :: (n.data ++ ['}']) := rfl

/-- If a character list ends in `'}'` after a `'}'`-free core `v`, then an
equation `u ++ '}' :: t = v ++ ['}']` forces `u = v` and `t = []`: the
first `'}'` after the core is the final one. -/
theorem append_singleton_brace {u v t : List Char} (hb : '}' ∉ v)
    (h : u ++ '}' :: t = v ++ ['}']) : u = v ∧ t = [] := by
  induction u generalizing v with
  | nil =>
    cases v with
    | nil => simpa using h
    | cons d v' =>
      simp only [List.nil_append, List.cons_append, List.cons.injEq] at h
      obtain ⟨rfl, -⟩ := h
      exact absurd (List.mem_cons_self _ _) hb
  | cons c u' ih =>
    cases v with
    | nil => simp at h
    | cons d v' =>
      simp only [List.cons_append, List.cons.injEq] at h
      obtain ⟨rfl, h'⟩ := h
      have hb' : '}' ∉ v' := fun hm => hb (List.mem_cons_of_mem _ hm)
      obtain ⟨rfl, rfl⟩ := ih hb' h'
      exact ⟨rfl, rfl⟩

/-- Distinct variable names give non-overlapping substitution tokens: when
the name `x` contains neither `'$'` nor `'}'` and `y ≠ x`, the token of `y`
does not occur inside the token of `x`. -/
theorem token_no_occurrence {x y : String} (hd : '$' ∉ x.data)
    (hb : '}' ∉ x.data) (hxy : y ≠ x) :
    ¬ (("$\x7b" ++ y ++ "\x7d").data <:+: ("$\x7b" ++ x ++ "\x7d").data) := by
  rw [token_data, token_data]
  rintro ⟨s, t, hst⟩
  cases s with
  | nil =>
    simp only [List.nil_append, List.cons_append, List.append_assoc,
      List.singleton_append, List.cons.injEq] at hst
    obtain ⟨-, -, hst⟩ := hst
    obtain ⟨h1, -⟩ := append_singleton_brace hb hst
    exact hxy (by cases y; cases x; simp_all)
  | cons c s' =>
    simp only [List.cons_append, List.cons.injEq] at hst
    obtain ⟨rfl, hst⟩ := hst
    have hmem : '$' ∈ '{' :: (x.data ++ ['}']) := by
      rw [← hst]
      simp
    simp at hmem
    exact hd hmem

/-- Whenever `execute` returns a result (rather than raising), the result's
`action` field is the action's `type` value and its `selector` field is the
action's `selector` value defaulted to the empty string. -/
theorem execute_fields {env : Env} {s : ExecState} {a : Action}
    {r : ActionResult} {s1 : ExecState}
    (h : execute env s a = Except.ok (r, s1)) :
    a.type? = some r.action ∧ r.selector = (a.selector?).getD "" := by
  cases hA : a.type? with
  | none => simp [execute, hA] at h
  | some t =>
    simp only [execute, hA] at h
    split at h <;>
      (simp only [Except.ok.injEq, Prod.mk.injEq] at h
       obtain ⟨h1, -⟩ := h
       subst h1
       exact ⟨rfl, rfl⟩)

/-- Loop invariant of `TestRunner.run`'s action loop: when the loop
completes, it has produced one result per action in input order (the
`i`-th result carries the `i`-th action's type and selector), the `passed`
counter counts exactly the passed results, the `failed` counter the failed
ones, and the two counters sum to the number of actions. -/
theorem runActions_spec (env : Env) (actions : List Action) :
    ∀ (s : ExecState) (idx : Nat) (res : List ActionResult) (p f : Nat)
      (sFin : ExecState),
    runActions env actions s idx = Except.ok (res, p, f, sFin) →
    res.length = actions.length ∧
    p + f = actions.length ∧
    p = (res.filter (fun r => decide (r.status = Status.passed))).length ∧
    f = (res.filter (fun r => decide (r.status = Status.failed))).length ∧
    ∀ i, ((res.get? i).map (fun r => r.action)
            = (actions.get? i).map (fun a => (a.type?).getD "")) ∧
         ((res.get? i).map (fun r => r.selector)
            = (actions.get? i).map (fun a => (a.selector?).getD "")) := by
  induction actions with
  | nil =>
    intro s idx res p f sFin h
    simp only [runActions, Except.ok.injEq, Prod.mk.injEq] at h
    obtain ⟨rfl, rfl, rfl, rfl⟩ := h
    exact ⟨rfl, rfl, rfl, rfl, fun i => ⟨rfl, rfl⟩⟩
  | cons a rest ih =>
    intro s idx res p f sFin h
    simp only [runActions] at h
    split at h
    · simp at h
    · rename_i r0 s1 hx
      split at h
      · simp at h
      · rename_i rs pp ff s2 hr
        simp only [Except.ok.injEq, Prod.mk.injEq] at h
        obtain ⟨rfl, rfl, rfl, rfl⟩ := h
        obtain ⟨hlen, hsum, hp, hf, hidx⟩ := ih s1 (idx + 1) rs pp ff s2 hr
        obtain ⟨hact, hsel⟩ := execute_fields hx
        refine ⟨?_, ?_, ?_, ?_, ?_⟩
        · simp [hlen]
        · cases hst : r0.status <;> simp [hst] <;> omega
        · cases hst : r0.status <;> simp [hst, List.filter_cons, hp]
        · cases hst : r0.status <;> simp [hst, List.filter_cons, hf]
        · intro i
          cases i with
          | zero => exact ⟨by simp [hact], by simp [hsel]⟩
          | succ n => simpa using hidx n

/-! Claim theorems. -/

/-- C1: whenever `TestRunner.run` executes an action sequence of length N
to completion, the returned report's details list contains exactly N
ActionResults, one per input action and in input order (the i-th detail
carries the i-th action's type and selector), and the summary satisfies
`passed + failed = N = total`, the counters counting exactly the passed
and failed details. -/
theorem C1_run_report_shape (env : Env) (browser : String)
    (actions : List Action) (report : RunReport)
    (h : TestRunner.run env browser actions = Except.ok report) :
    report.details.length = actions.length ∧
    report.summary.total = actions.length ∧
    report.summary.passed + report.summary.failed = actions.length ∧
    report.summary.passed
      = (report.details.filter (fun r => decide (r.status = Status.passed))).length ∧
    report.summary.failed
      = (report.details.filter (fun r => decide (r.status = Status.failed))).length ∧
    ∀ i, ((report.details.get? i).map (fun r => r.action)
            = (actions.get? i).map (fun a => (a.type?).getD "")) ∧
         ((report.details.get? i).map (fun r => r.selector)
            = (actions.get? i).map (fun a => (a.selector?).getD "")) := by
  simp only [TestRunner.run] at h
  split at h
  · simp at h
  · rename_i results passed failed sFin hr
    simp only [Except.ok.injEq] at h
    subst h
    obtain ⟨hlen, hsum, hp, hf, hidx⟩ :=
      runActions_spec env actions initState 0 results passed failed sFin hr
    exact ⟨hlen, rfl, hsum, hp, hf, hidx⟩

/-- C1 witness: a concrete one-action run through `TestRunner.run`. -/
theorem C1_run_report_shape_witness :
    ∃ report,
      TestRunner.run env0 "chrome" [{ type? := some "switch_to_window" }]
        = Except.ok report ∧
      report.details.length = 1 ∧
      report.summary.passed + report.summary.failed = 1 := by
  refine ⟨_, rfl, ?_, ?_⟩
  · exact (C1_run_report_shape env0 "chrome"
      [{ type? := some "switch_to_window" }] _ rfl).1
  · exact (C1_run_report_shape env0 "chrome"
      [{ type? := some "switch_to_window" }] _ rfl).2.2.1

/-- C2 (code behaviour at the failing input): for the persisted five-action
report `report5` whose entries 2 and 4 failed, the retry path does extract
exactly those two failed entries in relative order, but what it re-executes
are the recorded RESULT entries, not the original action definitions: the
dumped dicts carry the action type under `action` and have no `type` (or
`value`) key, so the first retried action raises `KeyError('type')` inside
`TestRunner.run` and the whole retry run aborts with an error instead of
re-executing the original failed actions. -/
theorem C2_retry_replays_result_records :
    planRetry report5 = [failDetail "#a2", failDetail "#a4"] ∧
    resultToAction (failDetail "#a2")
      = { type? := none, selector? := some "#a2", value? := none,
          expected? := none, duration? := some 0, script? := none,
          var? := none, index? := none } ∧
    retry_failed env0 "chrome" report5 = Except.error "\x27type\x27" :=
  ⟨rfl, rfl, rfl⟩

/-- C3 (code behaviour at the failing input): a malformed action lacking
the `type` key makes `ActionExecutor.execute` raise `KeyError('type')` (the
result dict reads `action['type']` before the `try` block), so the whole
run aborts with an error — no report is returned and the remaining actions
never execute — instead of failing only the offending action and
continuing. -/
theorem C3_missing_type_aborts_run :
    execute env0 initState { selector? := some "#b" } = Except.error "\x27type\x27" ∧
    TestRunner.run env0 "chrome"
      [{ type? := some "wait" }, { selector? := some "#b" }, { type? := some "wait" }]
      = Except.error "\x27type\x27" :=
  ⟨rfl, rfl⟩

/-- C4: after a `store_text` action stores the text "abc" under variable
`x` (from a fresh executor state), an `input` action whose value holds the
token of `x` and the token of the never-stored `y` sends the value with the
`x` token replaced by the literal "abc" and the `y` token left verbatim,
and the result message echoes the substituted value. -/
theorem C4_variable_substitution (env : Env) (selStore selInput : String)
    (elStore elInput : Element)
    (h1 : env.findPresent selStore = some elStore)
    (ht : textOrValue elStore = "abc")
    (h2 : env.findPresent selInput = some elInput) :
    execute env initState (storeAbcAction selStore)
      = Except.ok ({ action := "store_text", selector := selStore,
                     status := Status.passed,
                     message := "Stored text \x27abc\x27 in variable \x27x\x27",
                     screenshot := none, duration := 0 },
                   { vars := [("x", "abc")] }) ∧
    execute env { vars := [("x", "abc")] } (inputTokensAction selInput)
      = Except.ok ({ action := "input", selector := selInput,
                     status := Status.passed,
                     message := "Input value: \x27abc and $\x7by\x7d\x27",
                     screenshot := none, duration := 0 },
                   { vars := [("x", "abc")] }) := by
  have hsub : substituteVariables [("x", "abc")] "$\x7bx\x7d and $\x7by\x7d"
      = "abc and $\x7by\x7d" := by decide
  constructor
  · simp [execute, handleAction, storeAbcAction, h1, ht, initState, setVar]
  · simp [execute, handleAction, inputTokensAction, h2, hsub]

/-- C4 witness: the scenario evaluated in the concrete environment `env4`
where `#src` and `#dst` resolve to an element with text "abc". -/
theorem C4_variable_substitution_witness :
    execute env4 initState (storeAbcAction "#src")
      = Except.ok ({ action := "store_text", selector := "#src",
                     status := Status.passed,
                     message := "Stored text \x27abc\x27 in variable \x27x\x27",
                     screenshot := none, duration := 0 },
                   { vars := [("x", "abc")] }) ∧
    execute env4 { vars := [("x", "abc")] } (inputTokensAction "#dst")
      = Except.ok ({ action := "input", selector := "#dst",
                     status := Status.passed,
                     message := "Input value: \x27abc and $\x7by\x7d\x27",
                     screenshot := none, duration := 0 },
                   { vars := [("x", "abc")] }) :=
  C4_variable_substitution env4 "#src" "#dst" el_abc el_abc
    (by decide) (by decide) (by decide)

/-- C5 counterexample: with the store holding `x ↦ "${y}"` and then
`y ↦ "world"` (insertion order `x` before `y`), substituting the token of
`x` does NOT leave the literal token of `y` in the output — the later `y`
pass re-expands the value just substituted for `x`, yielding "world". -/
theorem C5_counterexample :
    substituteVariables [("x", "$\x7by\x7d"), ("y", "world")] "$\x7bx\x7d" = "world" ∧
    substituteVariables [("x", "$\x7by\x7d"), ("y", "world")] "$\x7bx\x7d" ≠ "$\x7by\x7d" :=
  ⟨by decide, by decide⟩

/-- C5 (amended): substitution is a single left-to-right pass over the
variables in insertion order, each token replaced textually once, and a
stored value is never re-expanded by the pass of the same variable or of
one stored earlier.  Universally: for every pair of distinct variable
names `x`, `y` (`x`'s name containing neither `'$'` nor `'}'`), every
stored value `vx` of `x`, every stored value `w` of `y`, and every input
`u` not containing the token of `y`, the store with `y` before `x` acts on
`u` exactly as the single textual replacement of `x`'s token by `vx`
(likewise when `y` is undefined), so substituting the input `"${x}"`
yields `vx` verbatim — any token of `y` inside `vx` is left literal.  But
when `y` was stored after `x`, `y`'s later pass does re-expand the value
just substituted: if `x` stores exactly the token of `y`, substituting
`"${x}"` yields `y`'s stored value `w`. -/
theorem C5_substitution_single_pass (x y vx w u : String)
    (hd : '$' ∉ x.data) (hb : '}' ∉ x.data) (hxy : y ≠ x)
    (hu : strContains u ("$\x7b" ++ y ++ "\x7d") = false) :
    substituteVariables [(y, w), (x, vx)] u
      = strReplace u ("$\x7b" ++ x ++ "\x7d") vx ∧
    substituteVariables [(x, vx)] u
      = strReplace u ("$\x7b" ++ x ++ "\x7d") vx ∧
    substituteVariables [(y, w), (x, vx)] ("$\x7b" ++ x ++ "\x7d") = vx ∧
    substituteVariables [(x, vx)] ("$\x7b" ++ x ++ "\x7d") = vx ∧
    substituteVariables [(x, "$\x7b" ++ y ++ "\x7d"), (y, w)] ("$\x7b" ++ x ++ "\x7d")
      = w := by
  have hself : ∀ rep : String,
      strReplace ("$\x7b" ++ x ++ "\x7d") ("$\x7b" ++ x ++ "\x7d") rep = rep :=
    fun rep => strReplace_self _ rep _ _ (token_data x)
  have hselfy : ∀ rep : String,
      strReplace ("$\x7b" ++ y ++ "\x7d") ("$\x7b" ++ y ++ "\x7d") rep = rep :=
    fun rep => strReplace_self _ rep _ _ (token_data y)
  have hnoY : strContains ("$\x7b" ++ x ++ "\x7d") ("$\x7b" ++ y ++ "\x7d") = false :=
    decide_eq_false (token_no_occurrence hd hb hxy)
  refine ⟨?_, rfl, ?_, ?_, ?_⟩
  · show strReplace (strReplace u ("$\x7b" ++ y ++ "\x7d") w)
        ("$\x7b" ++ x ++ "\x7d") vx
      = strReplace u ("$\x7b" ++ x ++ "\x7d") vx
    rw [strReplace_of_not_contains w hu]
  · show strReplace (strReplace ("$\x7b" ++ x ++ "\x7d") ("$\x7b" ++ y ++ "\x7d") w)
        ("$\x7b" ++ x ++ "\x7d") vx = vx
    rw [strReplace_of_not_contains w hnoY, hself]
  · exact hself vx
  · show strReplace
        (strReplace ("$\x7b" ++ x ++ "\x7d") ("$\x7b" ++ x ++ "\x7d")
          ("$\x7b" ++ y ++ "\x7d"))
        ("$\x7b" ++ y ++ "\x7d") w = w
    rw [hself, hselfy]

/-- C5 (amended) witness: names `x`/`y`, stored value `"${y}!"` for `x`,
stored value `"world"` for `y`, input `"hi ${x}"` — with `y` stored first,
substitution yields `x`'s stored value verbatim, the `${y}` inside it left
literal. -/
theorem C5_substitution_single_pass_witness :
    substituteVariables [("y", "world"), ("x", "$\x7by\x7d!")] "hi $\x7bx\x7d"
      = "hi $\x7by\x7d!" ∧
    substituteVariables [("y", "world"), ("x", "$\x7by\x7d!")] "$\x7bx\x7d"
      = "$\x7by\x7d!" := by
  have h := C5_substitution_single_pass "x" "y" "$\x7by\x7d!" "world" "hi $\x7bx\x7d"
    (by decide) (by decide) (by decide) (by decide)
  refine ⟨?_, h.2.2.1⟩
  rw [h.1]
  decide

/-- C6: in a multi-target run, sequential or parallel, an exception from
one target's executor is caught at the orchestrator boundary and converted
into a synthetic report for that target with zero total/passed/failed
counts and the error string attached, and the remaining targets still
contribute their own reports — one target's failure never aborts the
others. -/
theorem C6_orchestrator_isolation (setup : String → Option String)
    (env : String → Env) (actions : List Action) (e : String)
    (r1 r3 : RunReport)
    (hc : runTarget setup env actions "chrome" = Except.ok r1)
    (hf : runTarget setup env actions "firefox" = Except.error e)
    (he : runTarget setup env actions "edge" = Except.ok r3) :
    runAllSequential setup env actions = [r1, syntheticReport "firefox" e, r3] ∧
    (syntheticReport "firefox" e).summary.total = 0 ∧
    (syntheticReport "firefox" e).summary.passed = 0 ∧
    (syntheticReport "firefox" e).summary.failed = 0 ∧
    (syntheticReport "firefox" e).error = some e ∧
    ∀ completionOrder : List String, completionOrder.Perm allBrowsers →
      (runAllParallel setup env actions completionOrder).Perm
        [r1, syntheticReport "firefox" e, r3] := by
  have hseq : runAllSequential setup env actions
      = [r1, syntheticReport "firefox" e, r3] := by
    simp [runAllSequential, allBrowsers, targetEntry, hc, hf, he]
  refine ⟨hseq, rfl, rfl, rfl, rfl, ?_⟩
  intro completionOrder hperm
  have hmap := hperm.map (targetEntry setup env actions)
  rw [show allBrowsers.map (targetEntry setup env actions)
        = [r1, syntheticReport "firefox" e, r3] from hseq] at hmap
  exact hmap

/-- C6 witness: firefox session setup fails with "boom" while chrome and
edge run an empty action list normally. -/
theorem C6_orchestrator_isolation_witness :
    runAllSequential setupFirefoxFails (fun _ => env0) []
      = [emptyReportFor "chrome", syntheticReport "firefox" "boom",
         emptyReportFor "edge"] :=
  (C6_orchestrator_isolation setupFirefoxFails (fun _ => env0) [] "boom"
    (emptyReportFor "chrome") (emptyReportFor "edge")
    (by rfl) (by rfl) (by rfl)).1

/-- C7 (amended): the summary's success_rate equals passed/total×100
ROUNDED to two decimal places (Python `round`, idealised as round-half-even
over exact rationals), equals 0 when total is 0, and the summary duration
equals the sum of the per-detail durations; `passed` and `total` here are
exactly the number of passed details and the number of details. -/
theorem C7_summary_rate_and_duration (env : Env) (browser : String)
    (actions : List Action) (report : RunReport)
    (h : TestRunner.run env browser actions = Except.ok report) :
    report.summary.duration?
      = some ((report.details.map (fun r => r.duration)).sum) ∧
    report.summary.success_rate
      = (if report.details.length ≠ 0
         then pyRound2Frac
           (((report.details.filter
               (fun r => decide (r.status = Status.passed))).length : ℤ) * 100)
           report.details.length
         else 0) ∧
    (report.summary.total = 0 → report.summary.success_rate = 0) := by
  simp only [TestRunner.run] at h
  split at h
  · simp at h
  · rename_i results passed failed sFin hr
    simp only [Except.ok.injEq] at h
    subst h
    obtain ⟨hlen, hsum, hp, hf, hidx⟩ :=
      runActions_spec env actions initState 0 results passed failed sFin hr
    refine ⟨rfl, ?_, ?_⟩
    · dsimp only
      rw [hlen, ← hp]
    · intro h0
      dsimp only at h0 ⊢
      simp [h0]

/-- C7 witness: the duration invariant evaluated on a concrete
three-action run. -/
theorem C7_summary_rate_and_duration_witness :
    ∃ report, TestRunner.run env0 "chrome" acts3 = Except.ok report ∧
      report.summary.duration?
        = some ((report.details.map (fun r => r.duration)).sum) := by
  refine ⟨_, rfl, (C7_summary_rate_and_duration env0 "chrome" acts3 _ rfl).1⟩

/-- C7 counterexample: a three-action run with one pass has
success_rate 33.33 (two-decimal rounding), which is not the exact
passed/total×100 = 100/3 the claim states. -/
theorem C7_counterexample :
    ∃ report, TestRunner.run env0 "chrome" acts3 = Except.ok report ∧
      report.summary.passed = 1 ∧ report.summary.total = 3 ∧
      report.summary.success_rate
        ≠ (report.summary.passed : ℚ) / (report.summary.total : ℚ) * 100 := by
  refine ⟨_, rfl, rfl, rfl, ?_⟩
  show pyRound2Frac (((1 : ℕ) : ℤ) * 100) 3 ≠ ((1 : ℕ) : ℚ) / ((3 : ℕ) : ℚ) * 100
  have h : roundHalfEvenDiv ((((1 : ℕ) : ℤ) * 100) * 100) 3 = 3333 := by decide
  simp only [pyRound2Frac, h]
  norm_num

/-- C8: a `switch_to_window` action with index 5 when exactly two windows
are open returns a normal failed result — no exception — whose message is
exactly "Invalid window index: 5", and leaves the executor state
unchanged. -/
theorem C8_switch_to_window_out_of_range (env : Env) (s : ExecState)
    (sel? v? e? sc? var? : Option String) (d? : Option ℚ)
    (hwin : env.windowHandles.length = 2) :
    execute env s
      { type? := some "switch_to_window", selector? := sel?, value? := v?,
        expected? := e?, duration? := d?, script? := sc?, var? := var?,
        index? := some 5 }
      = Except.ok ({ action := "switch_to_window", selector := sel?.getD "",
                     status := Status.failed,
                     message := "Invalid window index: 5",
                     screenshot := none, duration := 0 }, s) := by
  simp [execute, handleAction, hwin]
  decide

/-- C8 witness: index 5 against the concrete two-window environment. -/
theorem C8_switch_to_window_out_of_range_witness :
    execute env2win initState { type? := some "switch_to_window", index? := some 5 }
      = Except.ok ({ action := "switch_to_window", selector := "",
                     status := Status.failed,
                     message := "Invalid window index: 5",
                     screenshot := none, duration := 0 }, initState) :=
  C8_switch_to_window_out_of_range env2win initState
    none none none none none none (by rfl)

/-- C9: a `switch_to_window` action that omits the `index` key defaults the
index to -1, which is out of range for every window list, so the action
always returns a failed result with message "Invalid window index: -1",
whatever the browser state. -/
theorem C9_switch_to_window_default_index (env : Env) (s : ExecState)
    (sel? v? e? sc? var? : Option String) (d? : Option ℚ) :
    execute env s
      { type? := some "switch_to_window", selector? := sel?, value? := v?,
        expected? := e?, duration? := d?, script? := sc?, var? := var?,
        index? := none }
      = Except.ok ({ action := "switch_to_window", selector := sel?.getD "",
                     status := Status.failed,
                     message := "Invalid window index: -1",
                     screenshot := none, duration := 0 }, s) := by
  simp only [execute, handleAction]
  rfl

/-- C10: a `verify_text` action that omits the `expected` key defaults the
expectation to the empty string, which is a substring of every read text,
so the action passes whenever the element is located within the timeout,
whatever the element's actual text. -/
theorem C10_verify_text_default_expected (env : Env) (s : ExecState)
    (sel : String) (el : Element) (v? sc? var? : Option String)
    (d? : Option ℚ) (i? : Option Int)
    (hfind : env.findPresent sel = some el) :
    execute env s
      { type? := some "verify_text", selector? := some sel, value? := v?,
        expected? := none, duration? := d?, script? := sc?, var? := var?,
        index? := i? }
      = Except.ok ({ action := "verify_text", selector := sel,
                     status := Status.passed,
                     message := "Text verification passed: \x27\x27 found",
                     screenshot := none, duration := 0 }, s) := by
  simp [execute, handleAction, hfind, strContains_nil]

/-- C10 witness: `verify_text` without `expected` against the concrete
environment where `#src` resolves to an element with text "abc". -/
theorem C10_verify_text_default_expected_witness :
    execute env4 initState { type? := some "verify_text", selector? := some "#src" }
      = Except.ok ({ action := "verify_text", selector := "#src",
                     status := Status.passed,
                     message := "Text verification passed: \x27\x27 found",
                     screenshot := none, duration := 0 }, initState) :=
  C10_verify_text_default_expected env4 initState "#src" el_abc
    none none none none none (by decide)

end ATF
